import Mathlib

/-!
Verification development for the KuiBaDB durability and transaction core.

This file gives a shallow embedding, in Lean 4, of the WAL record layout
and insertion machinery (`src/src/access/wal.rs`), the transaction manager
and session state machine (`src/src/access/xact.rs`), and the shared-buffer
slot state word (`src/src/utils/sb.rs`), and proves the testable properties
of the specification against that embedding.

Machine integers are modelled as `Nat` with explicit wrap-arounds
(`% 2 ^ 32`, `% 2 ^ 64`) at the points where the Rust code relies on a
fixed width.  Byte buffers (`Vec<u8>` / `&[u8]`) are modelled as
`List Nat`, each element standing for one byte (value below 256 whenever
the buffer was produced by the embedded serializers).  Fallible Rust
functions returning `anyhow::Result` are modelled with `Except String`;
Rust panics are modelled with `Option` (`none` = panic) or a dedicated
result constructor, as documented on each definition.
-/

namespace KuiBa

/-! ## Little-endian byte serialization

`#[repr(C, packed(1))]` structs in the source are written and re-read by
pointer casts on a little-endian machine; we model each fixed-width field
by its little-endian byte string. -/

/-- Little-endian encoding of a `u32` value (4 bytes). -/
def le32 (n : Nat) : List Nat :=
  [n % 256, n / 2 ^ 8 % 256, n / 2 ^ 16 % 256, n / 2 ^ 24 % 256]

/-- Little-endian encoding of a `u64` value (8 bytes). -/
def le64 (n : Nat) : List Nat :=
  [n % 256, n / 2 ^ 8 % 256, n / 2 ^ 16 % 256, n / 2 ^ 24 % 256,
   n / 2 ^ 32 % 256, n / 2 ^ 40 % 256, n / 2 ^ 48 % 256, n / 2 ^ 56 % 256]

/-- Read back a little-endian byte string as a natural number. -/
def fromLE : List Nat → Nat
  | [] => 0
  | b :: bs => b % 256 + 256 * fromLE bs

/-! ## CRC-32C

The source uses the `crc32c` crate: the Castagnoli CRC
(reflected polynomial `0x82F63B8B`), with `crc32c(data) =
crc32c_append(0, data)` and `crc32c_append(crc, data)` continuing a
previous computation.  We embed the standard bit-by-bit definition. -/

/-- One bit step of the reflected CRC-32C computation. -/
def crcBit (c : Nat) : Nat :=
  if c % 2 = 1 then (c / 2) ^^^ 0x82F63B8B else c / 2

/-- One byte step of the reflected CRC-32C computation. -/
def crcByte (c b : Nat) : Nat :=
  let c := c ^^^ (b % 256)
  crcBit (crcBit (crcBit (crcBit (crcBit (crcBit (crcBit (crcBit c)))))))

/-- `crc32c::crc32c_append(crc, data)`: continue a CRC-32C computation. -/
def crc32c_append (crc : Nat) (data : List Nat) : Nat :=
  (data.foldl crcByte (crc ^^^ 0xFFFFFFFF)) ^^^ 0xFFFFFFFF

/-- `crc32c::crc32c(data)`. -/
def crc32c (data : List Nat) : Nat := crc32c_append 0 data

/-! ## WAL record layout (`src/src/access/wal.rs`)

`RecordHdrSer` is `#[repr(C, packed(1))] {totlen: u32, info: u8, id: u8,
xid: u64, prev: u64, crc32c: u32}`, 26 bytes, field offsets
0, 4, 5, 6, 14, 22. -/

/-- `RECHDRLEN = size_of::<RecordHdrSer>()` = 26 bytes. -/
def RECHDRLEN : Nat := 26

/-- Resource-manager ids.  The `wal.rs` snapshot under `src/` declares only
`Xlog`; `xact.rs` additionally uses `RmgrId::Xact`, so the enum is embedded
with both variants, `Xlog = 0` and `Xact = 1` (successive discriminants). -/
inductive RmgrId where
  | Xlog
  | Xact
deriving DecidableEq, Repr

/-- `RmgrId as u8`. -/
def RmgrId.toU8 : RmgrId → Nat
  | .Xlog => 0
  | .Xact => 1

/-- `impl From<u8> for RmgrId`: panics on an unknown discriminant, modelled
as `none`. -/
def RmgrId.ofU8 (v : Nat) : Option RmgrId :=
  if v = 0 then some .Xlog else if v = 1 then some .Xact else none

/-- `RecordHdr`, the deserialized header.  In the source `id : RmgrId` and
deserialization panics on an unknown id byte; here that panic is kept
visible by typing the field as `Option RmgrId` (`none` = the panic case,
which never arises for records stamped by `finish_record`). -/
structure RecordHdr where
  totlen : Nat
  info : Nat
  id : Option RmgrId
  xid : Option Nat
  prev : Option Nat
deriving DecidableEq, Repr

/-- `RecordHdr::rmgr_info`: `self.info & 0xf0`. -/
def RecordHdr.rmgr_info (h : RecordHdr) : Nat := h.info &&& 0xf0

/-- `data_area`: the bytes after the header. -/
def data_area (rec : List Nat) : List Nat := rec.drop RECHDRLEN

/-- `hdr_crc_area`: the header prefix up to but not including the
`crc32c` field (`offset_of!(RecordHdrSer, crc32c)` = 22). -/
def hdr_crc_area (rec : List Nat) : List Nat := rec.take 22

/-- Decode the serialized header at the front of a record buffer
(the pointer cast `hdr(d)` followed by `RecordHdr::from`).
`Xid::new(0) = None` and `Lsn::new(0) = None`: the zero sentinel decodes
to `none`. -/
def decodeHdr (rec : List Nat) : RecordHdr :=
  { totlen := fromLE (rec.take 4)
    info := rec.getD 4 0 % 256
    id := RmgrId.ofU8 (rec.getD 5 0 % 256)
    xid := (fun x => if x = 0 then none else some x) (fromLE ((rec.drop 6).take 8))
    prev := (fun x => if x = 0 then none else some x) (fromLE ((rec.drop 14).take 8)) }

/-- The value written for an `Option<Xid>` / `Option<Lsn>` field:
0 when absent, else the wrapped nonzero value. -/
def optVal : Option Nat → Nat
  | none => 0
  | some x => x

/-- `finish_record(d, id, info, xid)`: stamps the header of a record
buffer whose first `RECHDRLEN` bytes are reserved for the header, with
`prev = 0` and `crc32c` = CRC-32C of the body area alone.  Panics
(modelled as `none`) when the buffer length is above `u32::MAX` or below
`RECHDRLEN`. -/
def finish_record (d : List Nat) (id : RmgrId) (info : Nat) (xid : Option Nat) :
    Option (List Nat) :=
  let len := d.length
  if len > 2 ^ 32 - 1 ∨ len < RECHDRLEN then none
  else
    let crc := crc32c (data_area d)
    some (le32 len ++ [info % 256, id.toU8] ++ le64 (optVal xid) ++ le64 0 ++
      le32 crc ++ data_area d)

/-- `InsertState::fill_record(record, prevlsn)`: write the `prev` field
(offset 14, 8 bytes), then extend the body CRC stored in the `crc32c`
field over the header prefix and store the final CRC. -/
def fill_record (record : List Nat) (prevlsn : Option Nat) : List Nat :=
  let r1 := record.take 14 ++ le64 (optVal prevlsn) ++ record.drop 22
  let bodycrc := fromLE ((r1.drop 22).take 4)
  let crc := crc32c_append bodycrc (hdr_crc_area r1)
  r1.take 22 ++ le32 crc ++ r1.drop 26

/-- `check_rec(d)`: validate length, total-length field, and CRC of a
record buffer; on success return the decoded header and the body slice. -/
def check_rec (d : List Nat) : Except String (RecordHdr × List Nat) :=
  if d.length < RECHDRLEN then .error "check_rec: record too small"
  else
    let data := data_area d
    let crc := crc32c_append (crc32c data) (hdr_crc_area d)
    let totlen := fromLE (d.take 4)
    if totlen ≠ d.length then .error "check_rec: invalid len"
    else
      let crcStored := fromLE ((d.drop 22).take 4)
      if crcStored ≠ crc then .error "check_rec: invalid crc"
      else .ok (decodeHdr d, data)

/-! ## WAL insert state (`src/src/access/wal.rs`)

`InsertState` plus the `GlobalStateExt` wrapper.  The OS file inside
`WritingWalFile` is irrelevant to the embedded state machine; the handle
is modelled by its `start_lsn`.  The two `Progress` trackers (`write`,
`flush`) live in `crate::ProgressTracker`, which is not under `src/`;
their effect is modelled from the spec (section 4.1): completions merge
into a monotonically advancing high-water mark, and in the sequential
embedding every completed range is contiguous with the mark, so `done`
advances the mark to the end of the range. -/

/-- `WritingWalFile`, reduced to its `start_lsn`. -/
structure WFile where
  start_lsn : Nat
deriving DecidableEq, Repr

/-- `InsertWriteReq`: a batch of buffers (plus an optional trailing
record) to be written at `buflsn` into `file`. -/
structure InsertWriteReq where
  buf : List (List Nat)
  record : Option (List Nat)
  buflsn : Nat
  file : WFile
deriving DecidableEq, Repr

/-- Total byte count of a write request. -/
def InsertWriteReq.size (w : InsertWriteReq) : Nat :=
  (w.buf.map List.length).sum + (w.record.map List.length).getD 0

/-- `InsertState`. -/
structure InsertState where
  curtimeline : Nat
  wal_buff_max_size : Nat
  wal_file_max_size : Nat
  redo : Nat
  buf : List (List Nat)
  buflsn : Nat
  prevlsn : Option Nat
  bufsize : Nat
  forcesync : Bool
  file : Option WFile
deriving DecidableEq, Repr

/-- `InsertRet`. -/
inductive InsertRet where
  | writeAndCreate (tli : Nat) (retlsn : Nat) (wreq : InsertWriteReq)
  | write (lsn : Nat) (wreq : InsertWriteReq)
  | noAction (lsn : Nat)
deriving DecidableEq, Repr

/-- `InsertState::nextlsn`. -/
def InsertState.nextlsn (s : InsertState) : Nat := s.buflsn + s.bufsize

/-- `InsertState::swap_buff`: hand the queued buffers (and optionally the
current record) to a write request, and reset the buffer at `newbuflsn`. -/
def InsertState.swap_buff (s : InsertState) (file : WFile)
    (record : Option (List Nat)) (newbuflsn : Nat) :
    InsertWriteReq × InsertState :=
  ({ buf := s.buf, record := record, buflsn := s.buflsn, file := file },
   { s with buf := [], buflsn := newbuflsn, bufsize := 0 })

/-- `InsertState::insert`: chain `prev`, assign the record its LSN
`reclsn = buflsn + bufsize`, remember it as the new `prevlsn`, and route
the record by the file-size and buffer-size high-water checks.  The
`u64` subtraction `retlsnval - file.start_lsn` is truncated subtraction;
the insert-state invariant `file.start_lsn ≤ buflsn` keeps it exact. -/
def InsertState.insert (s : InsertState) (record0 : List Nat) :
    InsertRet × InsertState :=
  let record := fill_record record0 s.prevlsn
  let reclsn := s.nextlsn
  let newbufsize := s.bufsize + record.length
  let retlsnval := reclsn + record.length
  let s1 : InsertState := { s with prevlsn := some reclsn }
  match s1.file with
  | some file =>
    if retlsnval - file.start_lsn ≥ s1.wal_file_max_size then
      let s2 := { s1 with file := none }
      let (wreq, s3) := s2.swap_buff file (some record) retlsnval
      (.writeAndCreate s3.curtimeline retlsnval wreq, s3)
    else if newbufsize ≥ s1.wal_buff_max_size then
      let (wreq, s3) := s1.swap_buff file (some record) retlsnval
      (.write retlsnval wreq, s3)
    else
      (.noAction retlsnval,
       { s1 with bufsize := newbufsize, buf := s1.buf ++ [record] })
  | none =>
    (.noAction retlsnval,
     { s1 with bufsize := newbufsize, buf := s1.buf ++ [record] })

/-- The record emitted by one `insert` call, extracted from its return
value: in the `NoAction` case the record was appended to the queue, in
the two write cases it rides in the write request. -/
def emittedRecord (r : InsertRet) (post : InsertState) : Option (List Nat) :=
  match r with
  | .noAction _ => post.buf.getLast?
  | .write _ w => w.record
  | .writeAndCreate _ _ w => w.record

/-- The `prev` field of a serialized record buffer (offset 14, 8 bytes). -/
def recPrevField (rec : List Nat) : Nat := fromLE ((rec.drop 14).take 8)

/-- The WAL global state: the insert state plus the `write` and `flush`
progress marks. -/
structure WalG where
  ins : InsertState
  writeMark : Nat
  flushMark : Nat
deriving DecidableEq, Repr

/-- `Progress::done` in the sequential embedding: ranges complete in
order, so the high-water mark advances to the end of the range.
(Modelled from the spec, section 4.1: the interval tracker itself lives
outside `src/`.) -/
def progressDone (mark endv : Nat) : Nat := max mark endv

/-- `InsertWriteReq::write`: scatter-write the request and report
`[buflsn, buflsn + written)` to the write tracker. -/
def WalG.wreqWrite (g : WalG) (w : InsertWriteReq) : WalG :=
  { g with writeMark := progressDone g.writeMark (w.buflsn + w.size) }

/-- `WritingWalFile::fsync(end_lsn)`: sync and report
`[start_lsn, end_lsn)` flushed. -/
def WalG.fileFsync (g : WalG) (_f : WFile) (endLsn : Nat) : WalG :=
  { g with flushMark := progressDone g.flushMark endLsn }

/-- `GlobalStateExt::do_fsync(weak_file, lsnval)`: wait for the write
mark, fsync the file if it is still alive, wait for the flush mark.  In
the sequential embedding the file of an active request is alive. -/
def WalG.doFsync (g : WalG) (f : WFile) (lsnval : Nat) : WalG :=
  g.fileFsync f lsnval

/-- `GlobalStateExt::do_create(tli, retlsn)`: install the freshly opened
segment file; if a concurrent `fsync` requested `forcesync`, drain the
buffer into the new file and fsync it. -/
def WalG.doCreate (g : WalG) (_tli retlsn : Nat) : WalG :=
  let file : WFile := { start_lsn := retlsn }
  if g.ins.forcesync then
    let nxtlsn := g.ins.nextlsn
    let ins1 := { g.ins with file := some file, forcesync := false }
    let (wreq, ins2) := ins1.swap_buff file none nxtlsn
    let g1 := { g with ins := ins2 }
    let g2 := g1.wreqWrite wreq
    g2.doFsync wreq.file (wreq.buflsn + wreq.size)
  else
    { g with ins := { g.ins with file := some file } }

/-- `GlobalStateExt::handle_insert_ret`. -/
def WalG.handleInsertRet (g : WalG) (r : InsertRet) : Nat × WalG :=
  match r with
  | .noAction lsn => (lsn, g)
  | .write lsn wreq => (lsn, g.wreqWrite wreq)
  | .writeAndCreate tli retlsn wreq =>
    (retlsn, (g.wreqWrite wreq).doCreate tli retlsn)

/-- `GlobalStateExt::insert_record`. -/
def WalG.insert_record (g : WalG) (r : List Nat) : Nat × WalG :=
  let (ret, ins1) := g.ins.insert r
  WalG.handleInsertRet { g with ins := ins1 } ret

/-- `GlobalStateExt::try_insert_record`: under the insert lock, refuse
without enqueuing when `page_lsn ≤ redo`, otherwise behave exactly as
`insert_record`. -/
def WalG.try_insert_record (g : WalG) (r : List Nat) (page_lsn : Nat) :
    Option Nat × WalG :=
  if page_lsn ≤ g.ins.redo then (none, g)
  else
    let (lsn, g1) := g.insert_record r
    (some lsn, g1)

/-- `GlobalStateExt::flush_action` fused with the dispatch in
`GlobalStateExt::fsync`: `Noop` and `Wait` leave the state alone (a
sequential caller has nobody else to wait for), `Flush` fsyncs the
current file, `Write` drains the buffer and then fsyncs. -/
def WalG.fsync (g : WalG) (lsn : Nat) : WalG :=
  if lsn ≤ g.flushMark then g
  else
    match g.ins.file with
    | some file =>
      if lsn ≤ file.start_lsn then g
      else if lsn ≤ g.ins.buflsn then g.doFsync file lsn
      else
        let nxtlsn := g.ins.nextlsn
        let (wreq, ins1) := g.ins.swap_buff file none nxtlsn
        let g1 := { g with ins := ins1 }
        (g1.wreqWrite wreq).doFsync wreq.file lsn
    | none =>
      if lsn ≤ g.ins.buflsn then g
      else { g with ins := { g.ins with forcesync := true } }

/-! ## Transaction manager (`src/src/access/xact.rs`)

`Xid = NonZeroU64` is modelled as `Nat`.  `inc_xid` / `dec_xid` live in
`crate::utils`, outside `src/`; they are modelled from the spec
("increment `nextxid`", `last_completed = nextxid - 1` at startup) as
successor and predecessor on the `u64` value. -/

/-- Modelled from the spec: `inc_xid`, the `u64` successor of a xid
(the wrap can never be reached because allocation stops at the
wraparound stop limit). -/
def inc_xid (x : Nat) : Nat := (x + 1) % 2 ^ 64

/-- `Snapshot`.  The `HashSet<Xid>` is a `Finset Nat`. -/
structure Snapshot where
  xmin : Nat
  xmax : Nat
  xidset : Finset Nat
deriving DecidableEq

/-- `Snapshot::is_running`, with the checks in source order:
above `xmax` is running, below `xmin` is not, `xmax` itself is not,
`xmin` itself is, anything else consults `xidset`. -/
def Snapshot.is_running (s : Snapshot) (xid : Nat) : Bool :=
  if xid > s.xmax then true
  else if xid < s.xmin then false
  else if xid = s.xmax then false
  else if xid = s.xmin then true
  else xid ∈ s.xidset

/-- `RunningXactState`.  The `BTreeSet<Xid>` is a `Finset Nat`
(iteration order = increasing order). -/
structure RunningXactState where
  xids : Finset Nat
  last_completed : Nat
  nextxid : Nat
  xid_stop_limit : Nat
deriving DecidableEq

/-- The xmins side of `GlobalStateExt`: a multiset of registered
snapshot lower bounds (`BTreeMultiSet<Xid>`). -/
structure GlobalXact where
  running : RunningXactState
  xmins : Multiset Nat
  ckpt_delay_num : Nat
deriving DecidableEq

/-- The snapshot built by `GlobalStateExt::get_snap` from the running
state: `xmax = last_completed`; with no xid in flight,
`xmin = inc_xid(last_completed)` and an empty set, otherwise `xmin` is
the least in-flight xid and the set holds the remaining ones. -/
def getSnap (s : RunningXactState) : Snapshot :=
  match s.xids.min with
  | some m => { xmin := m, xmax := s.last_completed, xidset := s.xids.erase m }
  | none =>
    { xmin := inc_xid s.last_completed, xmax := s.last_completed, xidset := ∅ }

/-- `GlobalStateExt::get_snap`, including the registration of the
snapshot `xmin` in the xmins multiset. -/
def GlobalXact.get_snap (g : GlobalXact) : Snapshot × GlobalXact :=
  let snap := getSnap g.running
  (snap, { g with xmins := snap.xmin ::ₘ g.xmins })

/-- The `u64` wrapping subtraction `a - b`. -/
def u64sub (a b : Nat) : Nat := (a + (2 ^ 64 - b % 2 ^ 64)) % 2 ^ 64

/-- `STOP = u64::MAX - 333`. -/
def XID_STOP : Nat := 2 ^ 64 - 334

/-- `GlobalStateExt::start_xid`: refuse with the wraparound error once
`nextxid ≥ STOP - xid_stop_limit`, otherwise hand out `nextxid`,
advance it, and add the new xid to the in-flight set.  The method
mutates the state only on success; the post state is returned alongside
the result. -/
def start_xid (s : RunningXactState) : Except String Nat × RunningXactState :=
  if s.nextxid ≥ u64sub XID_STOP s.xid_stop_limit then
    (.error "database is not accepting commands to avoid wraparound data loss in database",
     s)
  else
    let xid := s.nextxid
    (.ok xid, { s with nextxid := inc_xid xid, xids := insert xid s.xids })

/-- `GlobalStateExt::end_xid`: drop `xid` from the in-flight set and
advance `last_completed`; release one registration of `xmin`. -/
def GlobalXact.end_xid (g : GlobalXact) (xid xmin : Option Nat) : GlobalXact :=
  let g1 := match xid with
    | some x =>
      { g with running :=
          { g.running with
            xids := g.running.xids.erase x
            last_completed :=
              if g.running.last_completed < x then x
              else g.running.last_completed } }
    | none => g
  match xmin with
  | some m => { g1 with xmins := g1.xmins.erase m }
  | none => g1

/-! ## Session state machine (`src/src/access/xact.rs`)

`SessionState` itself lives in `crate::utils`, outside `src/`; the
fields `xact`, `wal`, `clog`, `dead`, `stmt_startts` used by `xact.rs`
are embedded directly, with wall-clock time (`SystemTime::now`) supplied
by a `now` field.  The clog (`super::clog`, outside `src/`) is modelled
from the spec glossary as a map xid -> status defaulting to in-progress.
Rust panics inside these routines are modelled by the `panic`
constructor of the result type. -/

/-- Modelled from the spec: `XidStatus` of the clog
(in-progress / committed / aborted). -/
inductive XidStatus where
  | inProgress
  | committed
  | aborted
deriving DecidableEq, Repr

/-- `TranState`. -/
inductive TranState where
  | default
  | start
  | inprogress
  | commit
  | abort
deriving DecidableEq, Repr

/-- `TBlockState`. -/
inductive TBlockState where
  | default
  | started
  | begin
  | inprogress
  | blockEnd
  | abort
  | abortEnd
  | abortPending
deriving DecidableEq, Repr

/-- `TranCtx`. -/
structure TranCtx where
  xid : Option Nat
  state : TranState
  block_state : TBlockState
  startts : Nat
deriving DecidableEq

/-- `XactInfo` discriminants: `Commit = 0x00`, `Abort = 0x20`. -/
def XACT_COMMIT : Nat := 0x00

/-- `XactInfo::Abort as u8`. -/
def XACT_ABORT : Nat := 0x20

/-- The session: `SessionStateExt` (`tranctx`, `snap`, `last_rec_end`)
together with the parts of the surrounding `SessionState` that
`xact.rs` touches. -/
structure Sess where
  tranctx : TranCtx
  snap : Option Snapshot
  last_rec_end : Option Nat
  g : GlobalXact
  wal : WalG
  clog : List (Nat × XidStatus)
  dead : Bool
  stmt_startts : Nat
  now : Nat
deriving DecidableEq

/-- Result of a session routine: `ok` / `err` correspond to
`anyhow::Result`, `panic` to a Rust panic (which kills the process, so
it carries no session state). -/
inductive SessRes (α : Type) where
  | ok (s : Sess) (a : α)
  | err (s : Sess) (msg : String)
  | panic (msg : String)
deriving DecidableEq

/-- Modelled from the spec: reading the clog status of a xid
(`get_xid_status` goes through the clog worker, outside `src/`);
unknown xids are in progress. -/
def clogStatus (c : List (Nat × XidStatus)) (x : Nat) : XidStatus :=
  (c.lookup x).getD .inProgress

/-- Modelled from the spec: `set_xid_status` records the status of a
xid in the clog. -/
def clogSet (c : List (Nat × XidStatus)) (x : Nat) (st : XidStatus) :
    List (Nat × XidStatus) :=
  (x, st) :: c

/-- Modelled from the spec (section 4.2): `wal::start_record` allocates
a record buffer whose first `RECHDRLEN` bytes are reserved for the
header, followed by the serialized body. -/
def start_record (body : List Nat) : List Nat :=
  List.replicate RECHDRLEN 0 ++ body

/-- `XactRecSer`: `#[repr(C, packed(1))] { xact_endts: u64 }`. -/
def xactRecSer (xact_endts : Nat) : List Nat := le64 xact_endts

/-- `SessionExt::insert_record`: stamp the record with the session xid
and hand it to the WAL global; remember the returned end-LSN in
`last_rec_end`.  `none` models the `finish_record` panic (and the
`unwrap` of a missing WAL global, which the embedding always has). -/
def Sess.insert_record (s : Sess) (id : RmgrId) (info : Nat) (rec : List Nat) :
    Option (Nat × Sess) :=
  match finish_record rec id info s.tranctx.xid with
  | none => none
  | some rec =>
    let (lsn, wal1) := s.wal.insert_record rec
    some (lsn, { s with wal := wal1, last_rec_end := some lsn })

/-- `SessionExt::try_insert_record`. -/
def Sess.try_insert_record (s : Sess) (id : RmgrId) (info : Nat)
    (rec : List Nat) (page_lsn : Nat) : Option (Option Nat × Sess) :=
  match finish_record rec id info s.tranctx.xid with
  | none => none
  | some rec =>
    let (ret, wal1) := s.wal.try_insert_record rec page_lsn
    match ret with
    | none => some (none, { s with wal := wal1 })
    | some lsn =>
      some (some lsn, { s with wal := wal1, last_rec_end := some lsn })

/-- `log_xact_rec`: serialize an `XactRec` bearing the end timestamp and
insert it with the `Xact` resource-manager id. -/
def log_xact_rec (s : Sess) (xact_endts : Nat) (info : Nat) : Option Sess :=
  (s.insert_record .Xact info (start_record (xactRecSer xact_endts))).map (·.2)

/-- `record_tran_commit`: when the session owns a xid, delay checkpoints
and emit the commit record; fsync up to `last_rec_end`; advertise
`Committed` in the clog; release the checkpoint delay. -/
def record_tran_commit (s : Sess) : Option Sess :=
  let step1 : Option Sess :=
    if s.tranctx.xid.isSome then
      let s1 := { s with g := { s.g with ckpt_delay_num := s.g.ckpt_delay_num + 1 } }
      log_xact_rec s1 s1.now XACT_COMMIT
    else some s
  match step1 with
  | none => none
  | some s2 =>
    let s3 := match s2.last_rec_end with
      | some lsn => { s2 with wal := s2.wal.fsync lsn, last_rec_end := none }
      | none => s2
    match s3.tranctx.xid with
    | some xid =>
      some { s3 with
        clog := clogSet s3.clog xid .committed
        g := { s3.g with ckpt_delay_num := s3.g.ckpt_delay_num - 1 } }
    | none => some s3

/-- `record_tran_abort`: a committed xid cannot abort (panic); otherwise
emit the abort record and advertise `Aborted`; always reset
`last_rec_end`. -/
def record_tran_abort (s : Sess) : SessRes Unit :=
  let step1 : SessRes Unit :=
    match s.tranctx.xid with
    | some xid =>
      if clogStatus s.clog xid = .committed then
        .panic "cannot abort transaction, it was already committed"
      else
        match log_xact_rec s s.now XACT_ABORT with
        | none => .panic "finish_record"
        | some s1 => .ok { s1 with clog := clogSet s1.clog xid .aborted } ()
    | none => .ok s ()
  match step1 with
  | .ok s1 _ => .ok { s1 with last_rec_end := none } ()
  | e => e

/-- `end_xid` (the session-level helper): complete the xid and release
the snapshot registration. -/
def Sess.end_xid_sess (s : Sess) : Sess :=
  let xid := s.tranctx.xid
  let snapxmin := s.snap.map (·.xmin)
  { s with
    g := s.g.end_xid xid snapxmin
    tranctx := { s.tranctx with xid := none }
    snap := none }

/-- `start_tran` (`StartTransaction`): allocate a xid (propagating the
wraparound refusal), stamp the start timestamp, and take the
transaction snapshot. -/
def start_tran (s : Sess) : SessRes Unit :=
  let s1 := { s with tranctx := { s.tranctx with state := .start } }
  match start_xid s1.g.running with
  | (.error m, r) => .err { s1 with g := { s1.g with running := r } } m
  | (.ok xid, r) =>
    let s2 := { s1 with
      g := { s1.g with running := r }
      tranctx := { s1.tranctx with
        xid := some xid
        startts := s1.stmt_startts
        state := .inprogress } }
    let (snap, g1) := s2.g.get_snap
    .ok { s2 with g := g1, snap := some snap } ()

/-- `commit_tran` (`CommitTransaction`). -/
def commit_tran (s : Sess) : SessRes Unit :=
  let s1 := { s with tranctx := { s.tranctx with state := .commit } }
  match record_tran_commit s1 with
  | none => .panic "record_tran_commit"
  | some s2 =>
    let s3 := s2.end_xid_sess
    .ok { s3 with tranctx := { s3.tranctx with state := .default } } ()

/-- `abort_tran` (`AbortTransaction`). -/
def abort_tran (s : Sess) : SessRes Unit :=
  let s1 := { s with tranctx := { s.tranctx with state := .abort } }
  match record_tran_abort s1 with
  | .ok s2 _ => .ok s2.end_xid_sess ()
  | e => e

/-- `cleanup_tran` (`CleanupTransaction`): outside the `Abort` state
this is a fatal inconsistency — mark the session dead and fail. -/
def cleanup_tran (s : Sess) : SessRes Unit :=
  if s.tranctx.state ≠ .abort then
    .err { s with dead := true } "cleanup_tran: unexpected state"
  else
    .ok { s with tranctx := { s.tranctx with state := .default } } ()

/-- `SessionExt::start_tran_cmd` (`StartTransactionCommand`). -/
def start_tran_cmd (s : Sess) : SessRes Unit :=
  match s.tranctx.block_state with
  | .default =>
    match start_tran s with
    | .ok s1 _ =>
      .ok { s1 with tranctx := { s1.tranctx with block_state := .started } } ()
    | e => e
  | .inprogress => .ok s ()
  | .abort => .ok s ()
  | .begin | .started | .blockEnd | .abortEnd | .abortPending =>
    .err s "start_tran_cmd: unexpected state"

/-- `SessionExt::commit_tran_cmd` (`CommitTransactionCommand`). -/
def commit_tran_cmd (s : Sess) : SessRes Unit :=
  match s.tranctx.block_state with
  | .default =>
    .err { s with dead := true } "commit_tran_cmd: unexpected state"
  | .started | .blockEnd =>
    match commit_tran s with
    | .ok s1 _ =>
      .ok { s1 with tranctx := { s1.tranctx with block_state := .default } } ()
    | e => e
  | .begin =>
    .ok { s with tranctx := { s.tranctx with block_state := .inprogress } } ()
  | .inprogress => .ok s ()
  | .abort => .ok s ()
  | .abortEnd =>
    match cleanup_tran s with
    | .ok s1 _ =>
      .ok { s1 with tranctx := { s1.tranctx with block_state := .default } } ()
    | e => e
  | .abortPending =>
    match abort_tran s with
    | .ok s1 _ =>
      match cleanup_tran s1 with
      | .ok s2 _ =>
        .ok { s2 with tranctx := { s2.tranctx with block_state := .default } } ()
      | e => e
    | e => e

/-- `SessionExt::begin_tran_block` (`BeginTransactionBlock`). -/
def begin_tran_block (s : Sess) : SessRes Unit :=
  match s.tranctx.block_state with
  | .started =>
    .ok { s with tranctx := { s.tranctx with block_state := .begin } } ()
  | .inprogress => .ok s ()
  | .abort => .ok s ()
  | .default | .begin | .blockEnd | .abortEnd | .abortPending =>
    .err { s with dead := true } "begin_tran_block: unexpected state"

/-- `SessionExt::end_tran_block` (`EndTransactionBlock`). -/
def end_tran_block (s : Sess) : SessRes Bool :=
  match s.tranctx.block_state with
  | .inprogress =>
    .ok { s with tranctx := { s.tranctx with block_state := .blockEnd } } true
  | .abort =>
    .ok { s with tranctx := { s.tranctx with block_state := .abortEnd } } false
  | .started => .ok s true
  | .default | .begin | .blockEnd | .abortEnd | .abortPending =>
    .err { s with dead := true } "end_tran_block: unexpected state"

/-- `SessionExt::user_abort_tran_block` (`UserAbortTransactionBlock`). -/
def user_abort_tran_block (s : Sess) : SessRes Unit :=
  match s.tranctx.block_state with
  | .inprogress | .started =>
    .ok { s with tranctx := { s.tranctx with block_state := .abortPending } } ()
  | .abort =>
    .ok { s with tranctx := { s.tranctx with block_state := .abortEnd } } ()
  | .default | .begin | .blockEnd | .abortEnd | .abortPending =>
    .err { s with dead := true } "user_abort_tran_block: unexpected state"

/-! ## Shared-buffer slot state word (`src/src/utils/sb.rs`)

The slot state is an `AtomicU32` packing refcount and flag bits.
`Slot::endio` runs under the per-slot lock bit: `lock()` sets
`SLOT_LOCKED`, the guard mutates the word, and dropping the guard stores
the word with `SLOT_LOCKED` cleared.  The embedding composes those three
steps into one pure function on the 32-bit word. -/

/-- `SLOT_LOCKED = 1 << 22`. -/
def SLOT_LOCKED : Nat := 2 ^ 22

/-- `SLOT_DIRTY = 1 << 23`. -/
def SLOT_DIRTY : Nat := 2 ^ 23

/-- `SLOT_VALID = 1 << 24`. -/
def SLOT_VALID : Nat := 2 ^ 24

/-- `SLOT_IO_INPROGRESS = 1 << 26`. -/
def SLOT_IO_INPROGRESS : Nat := 2 ^ 26

/-- `SLOT_IO_ERR = 1 << 27`. -/
def SLOT_IO_ERR : Nat := 2 ^ 27

/-- `SLOT_JUST_DIRTIED = 1 << 28`. -/
def SLOT_JUST_DIRTIED : Nat := 2 ^ 28

/-- `biton(state, bit)`. -/
def biton (state bit : Nat) : Bool := state &&& bit ≠ 0

/-- `dirty(state)`. -/
def dirty (state : Nat) : Bool := biton state SLOT_DIRTY

/-- `just_dirtied(state)`. -/
def just_dirtied (state : Nat) : Bool := biton state SLOT_JUST_DIRTIED

/-- `io_in_progress(state)`. -/
def io_in_progress (state : Nat) : Bool := biton state SLOT_IO_INPROGRESS

/-- `ioerr(state)`. -/
def ioerr (state : Nat) : Bool := biton state SLOT_IO_ERR

/-- The `u32` complement of a mask: `!mask` within 32 bits. -/
def not32 (m : Nat) : Nat := (2 ^ 32 - 1) ^^^ m

/-- `Slot::endio(clear_dirty, set_flag_bits)` acting on the state word:
acquire the lock bit, clear `SLOT_IO_INPROGRESS` and `SLOT_IO_ERR`,
clear `SLOT_DIRTY` when asked to and the slot was not just dirtied,
or in the requested flag bits, and release the lock bit. -/
def endio (state : Nat) (clear_dirty : Bool) (set_flag_bits : Nat) : Nat :=
  let s := state ||| SLOT_LOCKED
  let s := s &&& not32 (SLOT_IO_INPROGRESS ||| SLOT_IO_ERR)
  let s := if clear_dirty && !(just_dirtied s) then s &&& not32 SLOT_DIRTY else s
  let s := s ||| set_flag_bits
  s &&& not32 SLOT_LOCKED

/-! ## Result extractors and fixtures -/

/-- The LSN carried by an `InsertRet` (what `handle_insert_ret` hands
back in each case). -/
def retLsnOf : InsertRet → Nat
  | .writeAndCreate _ retlsn _ => retlsn
  | .write lsn _ => lsn
  | .noAction lsn => lsn

/-- The write request carried by an `InsertRet`, if any. -/
def wreqOf : InsertRet → Option InsertWriteReq
  | .writeAndCreate _ _ w => some w
  | .write _ w => some w
  | .noAction _ => none

/-- `GlobalStateExt::new` / `wal::init`: a fresh WAL global whose
buffer begins at `lsn`, with an open segment file at `lsn` and both
progress marks at `lsn`. -/
def WalG.init (tli lsn : Nat) (prevlsn : Option Nat)
    (redo buffMax fileMax : Nat) : WalG :=
  { ins :=
      { curtimeline := tli
        wal_buff_max_size := buffMax
        wal_file_max_size := fileMax
        redo := redo
        buf := []
        buflsn := lsn
        prevlsn := prevlsn
        bufsize := 0
        forcesync := false
        file := some { start_lsn := lsn } }
    writeMark := lsn
    flushMark := lsn }

/-- The running state of the snapshot scenario: in-flight `{5, 7, 9}`,
`last_completed = 4`. -/
def rxInflight579 : RunningXactState :=
  { xids := {5, 7, 9}
    last_completed := 4
    nextxid := 10
    xid_stop_limit := 0 }

/-- A concrete live session, in an explicit transaction block
(`block_state = Begin`), not dead. -/
def sessBegin : Sess :=
  { tranctx := { xid := none, state := .default, block_state := .begin, startts := 0 }
    snap := none
    last_rec_end := none
    g := { running := { xids := ∅, last_completed := 0, nextxid := 1, xid_stop_limit := 3 }
           xmins := ∅
           ckpt_delay_num := 0 }
    wal := WalG.init 1 100 none 100 4096 1024
    clog := []
    dead := false
    stmt_startts := 0
    now := 0 }

/-! ## Helper lemmas -/

@[simp] theorem le32_length (n : Nat) : (le32 n).length = 4 := rfl

@[simp] theorem le64_length (n : Nat) : (le64 n).length = 8 := rfl

theorem fromLE_le32 (n : Nat) : fromLE (le32 n) = n % 2 ^ 32 := by
  simp only [le32, fromLE]
  omega

theorem fromLE_le64 (n : Nat) : fromLE (le64 n) = n % 2 ^ 64 := by
  simp only [le64, fromLE]
  omega

theorem fromLE_le32_of_lt {n : Nat} (h : n < 2 ^ 32) : fromLE (le32 n) = n := by
  rw [fromLE_le32, Nat.mod_eq_of_lt h]

theorem fromLE_le64_of_lt {n : Nat} (h : n < 2 ^ 64) : fromLE (le64 n) = n := by
  rw [fromLE_le64, Nat.mod_eq_of_lt h]

theorem crcBit_lt {c : Nat} (h : c < 2 ^ 32) : crcBit c < 2 ^ 32 := by
  unfold crcBit
  split
  · exact Nat.xor_lt_two_pow (by omega) (by norm_num)
  · omega

theorem crcByte_lt {c : Nat} (b : Nat) (h : c < 2 ^ 32) : crcByte c b < 2 ^ 32 := by
  unfold crcByte
  have h0 : c ^^^ (b % 256) < 2 ^ 32 :=
    Nat.xor_lt_two_pow h (lt_of_lt_of_le (Nat.mod_lt _ (by norm_num)) (by norm_num))
  exact crcBit_lt (crcBit_lt (crcBit_lt (crcBit_lt
    (crcBit_lt (crcBit_lt (crcBit_lt (crcBit_lt h0)))))))

theorem foldl_crcByte_lt {c : Nat} (data : List Nat) (h : c < 2 ^ 32) :
    data.foldl crcByte c < 2 ^ 32 := by
  induction data generalizing c with
  | nil => exact h
  | cons b bs ih => exact ih (crcByte_lt b h)

theorem crc32c_append_lt {crc : Nat} (data : List Nat) (h : crc < 2 ^ 32) :
    crc32c_append crc data < 2 ^ 32 := by
  unfold crc32c_append
  exact Nat.xor_lt_two_pow (foldl_crcByte_lt data (Nat.xor_lt_two_pow h (by norm_num)))
    (by norm_num)

theorem crc32c_lt (data : List Nat) : crc32c data < 2 ^ 32 :=
  crc32c_append_lt data (by norm_num)

/-! ## Record layout lemmas -/

theorem rmgrId_roundtrip (id : RmgrId) : RmgrId.ofU8 id.toU8 = some id := by
  cases id <;> rfl

theorem fill_record_eq (r : List Nat) (p : Option Nat) (h : RECHDRLEN ≤ r.length) :
    fill_record r p =
      r.take 14 ++ le64 (optVal p) ++
        le32 (crc32c_append (fromLE ((r.drop 22).take 4))
          (r.take 14 ++ le64 (optVal p))) ++ r.drop 26 := by
  have hlen : 26 ≤ r.length := h
  have h14 : (r.take 14).length = 14 := by
    simp [List.length_take]
    omega
  have hAB : (r.take 14 ++ le64 (optVal p)).length = 22 := by
    simp [h14]
  simp only [fill_record, hdr_crc_area]
  rw [List.drop_left' hAB, List.take_left' hAB]
  have h1 : (r.take 14 ++ le64 (optVal p) ++ r.drop 22).drop 26 = r.drop 26 := by
    rw [List.drop_append_eq_append_drop, hAB]
    have hnil : (r.take 14 ++ le64 (optVal p)).drop 26 = [] :=
      List.drop_eq_nil_of_le (by rw [hAB]; norm_num)
    rw [hnil, List.nil_append, List.drop_drop]
  rw [h1]

theorem fill_record_length (r : List Nat) (p : Option Nat) (h : RECHDRLEN ≤ r.length) :
    (fill_record r p).length = r.length := by
  rw [fill_record_eq r p h]
  simp [le32, le64]
  have h26 : RECHDRLEN = 26 := rfl
  rw [h26] at h
  omega

theorem recPrevField_fill_record (r : List Nat) (p : Option Nat)
    (h : RECHDRLEN ≤ r.length) :
    recPrevField (fill_record r p) = optVal p % 2 ^ 64 := by
  rw [fill_record_eq r p h]
  unfold recPrevField
  have h14 : (r.take 14).length = 14 := by
    have h26 : RECHDRLEN = 26 := rfl
    rw [h26] at h
    simp [List.length_take]
    omega
  simp only [List.append_assoc]
  rw [List.drop_left' h14, List.take_left' (le64_length (optVal p))]
  exact fromLE_le64 _

/-! ## C1: the `is_running` predicate -/

/-- C1, counterexample.  The claim asserts that for every snapshot
`is_running t` is true iff `t > xmax ∨ t = xmin ∨ (xmin ≤ t < xmax ∧ t ∈
xidset)`.  On the degenerate snapshot with `xmin = xmax = 5` at `t = 5`
the right-hand side holds (`t = xmin`) but the code checks `t = xmax`
first and returns false, so the claimed equivalence fails. -/
theorem c1_counterexample :
    ¬ (Snapshot.is_running { xmin := 5, xmax := 5, xidset := ∅ } 5 = true ↔
        (5 > 5 ∨ 5 = 5 ∨ (5 ≤ 5 ∧ 5 < 5 ∧ 5 ∈ (∅ : Finset Nat)))) := by
  decide

/-- C1, amended: `is_running s t` is true iff `t > xmax`, or `t = xmin`
with `t ≠ xmax`, or `xmin ≤ t < xmax` and `t ∈ xidset`; in particular it
is false when `t = xmax`, and false when `t < xmin` unless `t` is also
above `xmax` (only possible for degenerate snapshots with
`xmax + 1 < xmin`). -/
theorem is_running_characterization (s : Snapshot) (t : Nat) :
    (s.is_running t = true ↔
      (t > s.xmax ∨ (t = s.xmin ∧ t ≠ s.xmax) ∨
        (s.xmin ≤ t ∧ t < s.xmax ∧ t ∈ s.xidset)))
    ∧ (t = s.xmax → s.is_running t = false)
    ∧ (t < s.xmin → t ≤ s.xmax → s.is_running t = false) := by
  unfold Snapshot.is_running
  refine ⟨?_, ?_, ?_⟩ <;> split_ifs <;> simp_all <;> try omega
  all_goals {
    constructor
    · intro h
      right
      exact ⟨by omega, h⟩
    · rintro (h | h)
      · omega
      · exact h.2
  }

/-- C1, witness: the amended characterization applied to a concrete
snapshot and xid. -/
theorem is_running_characterization_witness :
    Snapshot.is_running { xmin := 1, xmax := 3, xidset := {2} } 2 = true :=
  (is_running_characterization { xmin := 1, xmax := 3, xidset := {2} } 2).1.mpr
    (by decide)

/-! ## C2: `get_snap` -/

/-- C2, counterexample.  With in-flight `{5, 7, 9}` and
`last_completed = 4` the claim asserts `is_running 6 = false` on the
resulting snapshot, but `6 > xmax = 4`, so the code reports xid 6 as
running. -/
theorem c2_counterexample :
    ¬ ((getSnap rxInflight579).is_running 6 = false) := by
  decide

/-- C2, amended: `get_snap` returns `xmax = last_completed`; with no
xid in flight, `xmin` is the u64 successor of `last_completed` and the
set is empty, otherwise `xmin = min(I)` and `xidset = I` minus its
minimum.  On the concrete state with in-flight `{5, 7, 9}` and
`last_completed = 4` the snapshot is `(5, 4, {7, 9})` and
`is_running(6) = true` (not false as claimed), `is_running(7) = true`,
`is_running(10) = true`. -/
theorem get_snap_shape (s : RunningXactState) :
    (getSnap s).xmax = s.last_completed
    ∧ (s.xids = ∅ →
        (getSnap s).xmin = inc_xid s.last_completed ∧ (getSnap s).xidset = ∅)
    ∧ (∀ hne : s.xids.Nonempty,
        (getSnap s).xmin = s.xids.min' hne
        ∧ (getSnap s).xidset = s.xids.erase (s.xids.min' hne))
    ∧ (getSnap rxInflight579 = { xmin := 5, xmax := 4, xidset := {7, 9} }
      ∧ (getSnap rxInflight579).is_running 6 = true
      ∧ (getSnap rxInflight579).is_running 7 = true
      ∧ (getSnap rxInflight579).is_running 10 = true) := by
  refine ⟨?_, ?_, ?_, by decide⟩
  · unfold getSnap
    split <;> rfl
  · intro h
    have hm : s.xids.min = none := by rw [h]; exact Finset.min_empty
    unfold getSnap
    rw [hm]
    exact ⟨rfl, rfl⟩
  · intro hne
    have hm : s.xids.min = some (s.xids.min' hne) := (Finset.coe_min' hne).symm
    unfold getSnap
    rw [hm]
    exact ⟨rfl, rfl⟩

/-- C2, witness: the amended shape applied to the concrete running
state of the scenario. -/
theorem get_snap_shape_witness :
    (getSnap rxInflight579).xmin = 5 := by
  have h := (get_snap_shape rxInflight579).2.2.1 (by decide)
  rw [h.1]
  decide

/-! ## C6: `start_xid` -/

/-- C6: `start_xid` fails with the wraparound refusal exactly when
`nextxid ≥ (u64::MAX - 333) - xid_stop_limit`, leaving the running
state untouched; otherwise it returns the old `nextxid`, increments it
by one, and inserts the returned xid into the in-flight set (the other
fields unchanged).  The hypothesis `xid_stop_limit ≤ STOP` keeps the
`u64` subtraction `STOP - xid_stop_limit` from wrapping, as every
configuration reachable from a non-negative `XidStopLimit` does. -/
theorem start_xid_spec (s : RunningXactState)
    (hlim : s.xid_stop_limit ≤ XID_STOP) :
    ((∃ m, (start_xid s).1 = .error m) ↔
      XID_STOP - s.xid_stop_limit ≤ s.nextxid)
    ∧ (XID_STOP - s.xid_stop_limit ≤ s.nextxid → (start_xid s).2 = s)
    ∧ (s.nextxid < XID_STOP - s.xid_stop_limit →
        (start_xid s).1 = .ok s.nextxid
        ∧ (start_xid s).2.nextxid = s.nextxid + 1
        ∧ (start_xid s).2.xids = insert s.nextxid s.xids
        ∧ (start_xid s).2.last_completed = s.last_completed
        ∧ (start_xid s).2.xid_stop_limit = s.xid_stop_limit) := by
  have hpow : (2 : Nat) ^ 64 = 18446744073709551616 := by norm_num
  have hsub : u64sub XID_STOP s.xid_stop_limit = XID_STOP - s.xid_stop_limit := by
    unfold u64sub XID_STOP at *
    omega
  unfold start_xid
  rw [hsub]
  have hinc : s.nextxid < XID_STOP - s.xid_stop_limit →
      inc_xid s.nextxid = s.nextxid + 1 := by
    intro h
    unfold inc_xid XID_STOP at *
    omega
  split_ifs with h
  · exact ⟨⟨fun _ => h, fun _ => ⟨_, rfl⟩⟩, fun _ => rfl,
      fun hlt => absurd hlt (by omega)⟩
  · refine ⟨?_, fun hge => absurd hge h, fun hlt => ⟨rfl, ?_, rfl, rfl, rfl⟩⟩
    · constructor
      · rintro ⟨m, hm⟩
        exact absurd hm (by simp)
      · intro hge
        exact absurd hge h
    · simpa using hinc (by omega)

/-- C6, witness: allocation succeeds on a fresh state. -/
theorem start_xid_spec_witness :
    (start_xid { xids := ∅, last_completed := 0, nextxid := 1, xid_stop_limit := 3 }).1 =
      .ok 1 :=
  ((start_xid_spec { xids := ∅, last_completed := 0, nextxid := 1, xid_stop_limit := 3 }
    (by decide)).2.2 (by decide)).1

/-! ## C7: `try_insert_record` -/

/-- C7: `try_insert_record(r, page_lsn)` returns `none` exactly when
`page_lsn ≤ redo`, in which case the whole WAL state is unchanged;
otherwise it returns the LSN `insert_record(r)` would return from the
same state and leaves the state exactly as `insert_record(r)` would. -/
theorem try_insert_record_spec (g : WalG) (r : List Nat) (page_lsn : Nat) :
    ((g.try_insert_record r page_lsn).1 = none ↔ page_lsn ≤ g.ins.redo)
    ∧ (page_lsn ≤ g.ins.redo → (g.try_insert_record r page_lsn).2 = g)
    ∧ (g.ins.redo < page_lsn →
        (g.try_insert_record r page_lsn).1 = some (g.insert_record r).1
        ∧ (g.try_insert_record r page_lsn).2 = (g.insert_record r).2) := by
  unfold WalG.try_insert_record
  split_ifs with h
  · exact ⟨by simp [h], fun _ => rfl, fun hlt => absurd h (by omega)⟩
  · exact ⟨by simp [h], fun hle => absurd hle h, fun _ => ⟨rfl, rfl⟩⟩

/-- C7, witness: refusal on a stale page LSN, acceptance above `redo`,
applied at a concrete state. -/
theorem try_insert_record_spec_witness :
    ((WalG.init 1 100 none 100 4096 1024).try_insert_record
      (List.replicate 26 0) 50).2 = WalG.init 1 100 none 100 4096 1024 :=
  (try_insert_record_spec (WalG.init 1 100 none 100 4096 1024)
    (List.replicate 26 0) 50).2.1 (by decide)

/-! ## C9: `Slot::endio` -/

theorem biton_two_pow (x i : Nat) : biton x (2 ^ i) = x.testBit i := by
  simp only [biton, Nat.and_two_pow]
  cases h : x.testBit i <;> simp

/-- C9: on any slot state word, `endio` with `clear_dirty = true` keeps
the `DIRTY` bit set when `SLOT_JUST_DIRTIED` is set (so a slot dirtied
during an in-flight flush — `do_flush` calls `endio(true, 0)` — is
still dirty afterwards), clears `DIRTY` when `SLOT_JUST_DIRTIED` is
clear (and `DIRTY` is not among the requested flag bits, as at every
call site), and in every call the `SLOT_IO_INPROGRESS` and
`SLOT_IO_ERR` bits of the result are exactly those of the requested
flag bits: the old I/O bits are cleared before the or. -/
theorem endio_spec (state bits : Nat) (cd : Bool) :
    (just_dirtied state = true → dirty state = true →
      dirty (endio state true bits) = true)
    ∧ (just_dirtied state = false → bits.testBit 23 = false →
      dirty (endio state true bits) = false)
    ∧ (endio state cd bits).testBit 26 = bits.testBit 26
    ∧ (endio state cd bits).testBit 27 = bits.testBit 27 := by
  have e1 : (not32 (SLOT_IO_INPROGRESS ||| SLOT_IO_ERR)).testBit 28 = true := by decide
  have e2 : SLOT_LOCKED.testBit 28 = false := by decide
  have e3 : (not32 (SLOT_IO_INPROGRESS ||| SLOT_IO_ERR)).testBit 23 = true := by decide
  have e4 : SLOT_LOCKED.testBit 23 = false := by decide
  have e5 : (not32 SLOT_LOCKED).testBit 23 = true := by decide
  have e6 : (not32 SLOT_DIRTY).testBit 23 = false := by decide
  have e7 : (not32 (SLOT_IO_INPROGRESS ||| SLOT_IO_ERR)).testBit 26 = false := by decide
  have e8 : (not32 (SLOT_IO_INPROGRESS ||| SLOT_IO_ERR)).testBit 27 = false := by decide
  have e9 : (not32 SLOT_LOCKED).testBit 26 = true := by decide
  have e10 : (not32 SLOT_LOCKED).testBit 27 = true := by decide
  have e11 : (not32 SLOT_DIRTY).testBit 26 = true := by decide
  have e12 : (not32 SLOT_DIRTY).testBit 27 = true := by decide
  have hjdB : just_dirtied ((state ||| SLOT_LOCKED) &&&
      not32 (SLOT_IO_INPROGRESS ||| SLOT_IO_ERR)) = just_dirtied state := by
    simp only [just_dirtied, SLOT_JUST_DIRTIED, biton_two_pow,
      Nat.testBit_and, Nat.testBit_or, e1, e2, Bool.or_false, Bool.and_true]
  unfold endio
  simp only [hjdB]
  refine ⟨?_, ?_, ?_, ?_⟩
  · intro hjd hd
    simp only [dirty, SLOT_DIRTY, biton_two_pow] at hd ⊢
    simp [hjd, Nat.testBit_and, Nat.testBit_or, e3, e4, e5, hd]
  · intro hjd hb
    simp only [dirty, SLOT_DIRTY, biton_two_pow]
    simp [hjd, Nat.testBit_and, Nat.testBit_or, e5, e6, hb]
    intro _ _
    decide
  · cases h : cd && !just_dirtied state <;>
      simp [h, Nat.testBit_and, Nat.testBit_or, e7, e8, e9, e10, e11, e12]
  · cases h : cd && !just_dirtied state <;>
      simp [h, Nat.testBit_and, Nat.testBit_or, e7, e8, e9, e10, e11, e12]

/-- C9, witness: a just-dirtied dirty slot finishing its flush
(`endio(true, 0)`) stays dirty. -/
theorem endio_spec_witness :
    dirty (endio (SLOT_JUST_DIRTIED + SLOT_DIRTY) true 0) = true :=
  (endio_spec (SLOT_JUST_DIRTIED + SLOT_DIRTY) 0 true).1 (by decide) (by decide)

/-! ## C8: fatal transitions of the session state machine -/

/-- C8, counterexample.  The claim asserts that every fatal transition
sets the session dead flag.  `start_tran_cmd` on a session whose block
state is `Begin` is in that entry point's fatal set and returns an
error, but its bail arm does not set `dead`: the session comes back
with `dead = false`. -/
theorem c8_counterexample :
    start_tran_cmd sessBegin = .err sessBegin "start_tran_cmd: unexpected state"
    ∧ sessBegin.dead = false :=
  ⟨rfl, rfl⟩

/-- C8 (amended): the fatal arms of `commit_tran_cmd`,
`begin_tran_block`, `end_tran_block` and `user_abort_tran_block` return
an error with the session dead flag set; the fatal arm of
`start_tran_cmd` also returns an error but leaves the session — its
dead flag included — unchanged. -/
theorem fatal_transitions_dead (s : Sess) :
    (s.tranctx.block_state = .default →
      commit_tran_cmd s =
        .err { s with dead := true } "commit_tran_cmd: unexpected state")
    ∧ ((s.tranctx.block_state = .default ∨ s.tranctx.block_state = .begin ∨
        s.tranctx.block_state = .blockEnd ∨ s.tranctx.block_state = .abortEnd ∨
        s.tranctx.block_state = .abortPending) →
        begin_tran_block s =
          .err { s with dead := true } "begin_tran_block: unexpected state")
    ∧ ((s.tranctx.block_state = .default ∨ s.tranctx.block_state = .begin ∨
        s.tranctx.block_state = .blockEnd ∨ s.tranctx.block_state = .abortEnd ∨
        s.tranctx.block_state = .abortPending) →
        end_tran_block s =
          .err { s with dead := true } "end_tran_block: unexpected state")
    ∧ ((s.tranctx.block_state = .default ∨ s.tranctx.block_state = .begin ∨
        s.tranctx.block_state = .blockEnd ∨ s.tranctx.block_state = .abortEnd ∨
        s.tranctx.block_state = .abortPending) →
        user_abort_tran_block s =
          .err { s with dead := true } "user_abort_tran_block: unexpected state")
    ∧ ((s.tranctx.block_state = .begin ∨ s.tranctx.block_state = .started ∨
        s.tranctx.block_state = .blockEnd ∨ s.tranctx.block_state = .abortEnd ∨
        s.tranctx.block_state = .abortPending) →
        start_tran_cmd s = .err s "start_tran_cmd: unexpected state") := by
  refine ⟨?_, ?_, ?_, ?_, ?_⟩
  · intro h
    simp [commit_tran_cmd, h]
  · rintro (h | h | h | h | h) <;> simp [begin_tran_block, h]
  · rintro (h | h | h | h | h) <;> simp [end_tran_block, h]
  · rintro (h | h | h | h | h) <;> simp [user_abort_tran_block, h]
  · rintro (h | h | h | h | h) <;> simp [start_tran_cmd, h]

/-- C8, witness: the explicit `BEGIN` inside an open block is fatal and
marks the session dead. -/
theorem fatal_transitions_dead_witness :
    begin_tran_block sessBegin =
      .err { sessBegin with dead := true } "begin_tran_block: unexpected state" :=
  (fatal_transitions_dead sessBegin).2.1 (Or.inr (Or.inl rfl))

/-! ## C10: `finish_record` -/

/-- C10: `finish_record` panics exactly when the buffer length is below
`RECHDRLEN` or above `u32::MAX`; for every buffer with
`RECHDRLEN ≤ len ≤ u32::MAX` it returns normally and stamps
`totlen = len`, `prev = 0`, `xid` = the given xid (0 when absent), and
`crc32c` = CRC-32C of the body area alone (the bytes after the header);
the body area itself is left untouched. -/
theorem finish_record_spec (d : List Nat) (id : RmgrId) (info : Nat)
    (xid : Option Nat) (hinfo : info < 256) (hxid : ∀ x ∈ xid, x < 2 ^ 64) :
    (finish_record d id info xid = none ↔
      (d.length < RECHDRLEN ∨ d.length > 2 ^ 32 - 1))
    ∧ (RECHDRLEN ≤ d.length → d.length ≤ 2 ^ 32 - 1 →
        ∃ rec, finish_record d id info xid = some rec
          ∧ fromLE (rec.take 4) = d.length
          ∧ fromLE ((rec.drop 14).take 8) = 0
          ∧ fromLE ((rec.drop 6).take 8) = optVal xid
          ∧ fromLE ((rec.drop 22).take 4) = crc32c (data_area d)
          ∧ rec.getD 4 0 = info
          ∧ rec.getD 5 0 = id.toU8
          ∧ data_area rec = data_area d
          ∧ rec.length = d.length) := by
  have hxv : optVal xid < 2 ^ 64 := by
    cases xid with
    | none => norm_num [optVal]
    | some x => exact hxid x rfl
  have h26 : RECHDRLEN = 26 := rfl
  constructor
  · simp only [finish_record, h26]
    split_ifs with hg
    · exact iff_of_true rfl (by omega)
    · exact iff_of_false (by simp) (by omega)
  · intro h1 h2
    have hg : ¬ (d.length > 2 ^ 32 - 1 ∨ d.length < RECHDRLEN) := by
      push_neg
      exact ⟨h2, h1⟩
    refine ⟨_, by unfold finish_record; rw [if_neg hg], ?_, ?_, ?_, ?_, ?_, ?_, ?_, ?_⟩
    · have e : ((le32 d.length ++ [info % 256, id.toU8] ++ le64 (optVal xid) ++
          le64 0 ++ le32 (crc32c (data_area d)) ++ data_area d).take 4) =
          le32 d.length := rfl
      rw [e]
      exact fromLE_le32_of_lt (by omega)
    · have e : (((le32 d.length ++ [info % 256, id.toU8] ++ le64 (optVal xid) ++
          le64 0 ++ le32 (crc32c (data_area d)) ++ data_area d).drop 14).take 8) =
          le64 0 := rfl
      rw [e]
      exact fromLE_le64_of_lt (by norm_num)
    · have e : (((le32 d.length ++ [info % 256, id.toU8] ++ le64 (optVal xid) ++
          le64 0 ++ le32 (crc32c (data_area d)) ++ data_area d).drop 6).take 8) =
          le64 (optVal xid) := rfl
      rw [e]
      exact fromLE_le64_of_lt hxv
    · have e : (((le32 d.length ++ [info % 256, id.toU8] ++ le64 (optVal xid) ++
          le64 0 ++ le32 (crc32c (data_area d)) ++ data_area d).drop 22).take 4) =
          le32 (crc32c (data_area d)) := rfl
      rw [e]
      exact fromLE_le32_of_lt (crc32c_lt _)
    · show info % 256 = info
      exact Nat.mod_eq_of_lt hinfo
    · rfl
    · rfl
    · have e : (le32 d.length ++ [info % 256, id.toU8] ++ le64 (optVal xid) ++
          le64 0 ++ le32 (crc32c (data_area d)) ++ data_area d).length =
          26 + (data_area d).length := by
        simp [le32, le64]
        omega
      rw [e]
      unfold data_area
      simp [List.length_drop]
      omega

/-! ## C3: `insert_record` returns the end-LSN -/

theorem handleInsertRet_fst (g : WalG) (ret : InsertRet) :
    (g.handleInsertRet ret).1 = retLsnOf ret := by
  cases ret <;> rfl

theorem insert_retlsn (s : InsertState) (r : List Nat)
    (hr : RECHDRLEN ≤ r.length) :
    retLsnOf (s.insert r).1 = s.buflsn + s.bufsize + r.length := by
  obtain ⟨ct, wb, wf, rd, bf, bl, pl, bs, fs, fl⟩ := s
  cases fl with
  | none =>
    simp [InsertState.insert, InsertState.nextlsn, retLsnOf,
      fill_record_length r pl hr]
  | some f =>
    simp only [InsertState.insert, InsertState.nextlsn]
    split_ifs <;>
      simp [retLsnOf, InsertState.swap_buff, fill_record_length r pl hr]

theorem insert_record_fst (g : WalG) (r : List Nat)
    (hr : RECHDRLEN ≤ r.length) :
    (g.insert_record r).1 = g.ins.buflsn + g.ins.bufsize + r.length := by
  rcases hins : g.ins.insert r with ⟨ret, ins1⟩
  have h1 := insert_retlsn g.ins r hr
  rw [hins] at h1
  simp only [WalG.insert_record, hins]
  rw [handleInsertRet_fst]
  exact h1

/-- C3: `insert_record(r)` returns the end-LSN of the record: the
pre-insert `buflsn + bufsize` plus the length of `r`.  In the concrete
scenario starting at LSN `0x0133F0E2` with `wal_buff_max_size = 4096`
and `wal_file_max_size = 1 << 20`, inserting two 64-byte records makes
the first call return `0x0133F0E2 + 64` and the second
`0x0133F0E2 + 128`. -/
theorem insert_record_end_lsn (g : WalG) (r : List Nat)
    (hr : RECHDRLEN ≤ r.length) :
    (g.insert_record r).1 = g.ins.buflsn + g.ins.bufsize + r.length
    ∧ ((WalG.init 1 0x0133F0E2 none 0x0133F0E2 4096 (2 ^ 20)).insert_record
        (List.replicate 64 0)).1 = 0x0133F0E2 + 64
    ∧ (((WalG.init 1 0x0133F0E2 none 0x0133F0E2 4096 (2 ^ 20)).insert_record
        (List.replicate 64 0)).2.insert_record (List.replicate 64 0)).1 =
        0x0133F0E2 + 128 := by
  refine ⟨insert_record_fst g r hr, ?_, ?_⟩ <;> decide

/-- C3, witness: the general statement applied to the scenario state. -/
theorem insert_record_end_lsn_witness :
    ((WalG.init 1 0x0133F0E2 none 0x0133F0E2 4096 (2 ^ 20)).insert_record
      (List.replicate 64 0)).1 =
      (WalG.init 1 0x0133F0E2 none 0x0133F0E2 4096 (2 ^ 20)).ins.buflsn +
        (WalG.init 1 0x0133F0E2 none 0x0133F0E2 4096 (2 ^ 20)).ins.bufsize +
        (List.replicate 64 0 : List Nat).length :=
  (insert_record_end_lsn (WalG.init 1 0x0133F0E2 none 0x0133F0E2 4096 (2 ^ 20))
    (List.replicate 64 0) (by decide)).1

/-! ## C4: the `prev` chain -/

/-- C4, counterexample.  The claim asserts `prev = 0` for a record that
sits at the start of a WAL file.  Run with `wal_file_max_size = 64`
from LSN `L = 0x0133F0E2`: the first 64-byte record fills the first
segment (`WriteAndCreate`), so the second insert opens at
`buflsn = L + 64 = start_lsn` of the new file — its record is the first
one of that segment — yet its `prev` field is `L ≠ 0`: the chain is
not reset at a segment boundary. -/
theorem c4_counterexample :
    (((WalG.init 1 0x0133F0E2 none 0x0133F0E2 4096 64).insert_record
        (List.replicate 64 0)).2.ins.file =
      some { start_lsn := ((WalG.init 1 0x0133F0E2 none 0x0133F0E2 4096
        64).insert_record (List.replicate 64 0)).2.ins.buflsn })
    ∧ (wreqOf ((((WalG.init 1 0x0133F0E2 none 0x0133F0E2 4096 64).insert_record
        (List.replicate 64 0)).2.ins.insert (List.replicate 64 0)).1)).map
        (fun w => (w.buflsn, w.record.map recPrevField)) =
      some (0x0133F0E2 + 64, some 0x0133F0E2)
    ∧ (0x0133F0E2 : Nat) ≠ 0 := by
  refine ⟨?_, ?_, by decide⟩ <;> decide

theorem insert_prevlsn (s : InsertState) (r : List Nat) :
    (s.insert r).2.prevlsn = some (s.buflsn + s.bufsize) := by
  obtain ⟨ct, wb, wf, rd, bf, bl, pl, bs, fs, fl⟩ := s
  cases fl with
  | none => simp [InsertState.insert, InsertState.nextlsn]
  | some f =>
    simp only [InsertState.insert, InsertState.nextlsn]
    split_ifs <;> simp [InsertState.swap_buff]

theorem insert_emitted (s : InsertState) (r : List Nat) :
    emittedRecord (s.insert r).1 (s.insert r).2 =
      some (fill_record r s.prevlsn) := by
  obtain ⟨ct, wb, wf, rd, bf, bl, pl, bs, fs, fl⟩ := s
  cases fl with
  | none =>
    simp only [InsertState.insert, InsertState.nextlsn, emittedRecord]
    rw [List.getLast?_append_cons]
    rfl
  | some f =>
    simp only [InsertState.insert, InsertState.nextlsn]
    split_ifs
    all_goals simp only [InsertState.swap_buff, emittedRecord]
    all_goals
      first
      | rfl
      | (rw [List.getLast?_append_cons]; rfl)

/-- C4 (amended): the record emitted by each `insert` is the incoming
buffer prev-chained to the state `prevlsn`; its `prev` field holds the
start LSN of the immediately preceding record in insertion order and is
0 exactly when no record preceded it since WAL initialization
(`prevlsn` absent); after the insert the state remembers this record's
start LSN as the new `prevlsn` — across segment switches too, so the
record emitted next (even one that begins a fresh WAL file) carries
this record's start LSN, not 0. -/
theorem insert_prev_chain (s : InsertState) (r r2 : List Nat)
    (hr : RECHDRLEN ≤ r.length) (hr2 : RECHDRLEN ≤ r2.length)
    (hp : ∀ p ∈ s.prevlsn, p < 2 ^ 64)
    (hb : s.buflsn + s.bufsize < 2 ^ 64) :
    emittedRecord (s.insert r).1 (s.insert r).2 =
      some (fill_record r s.prevlsn)
    ∧ recPrevField (fill_record r s.prevlsn) = optVal s.prevlsn
    ∧ ((∀ p ∈ s.prevlsn, 0 < p) →
        (recPrevField (fill_record r s.prevlsn) = 0 ↔ s.prevlsn = none))
    ∧ (s.insert r).2.prevlsn = some (s.buflsn + s.bufsize)
    ∧ recPrevField (fill_record r2 (s.insert r).2.prevlsn) =
        s.buflsn + s.bufsize := by
  have hopt : optVal s.prevlsn < 2 ^ 64 := by
    cases hps : s.prevlsn with
    | none => norm_num [optVal]
    | some p => exact hp p hps
  have hfield : recPrevField (fill_record r s.prevlsn) = optVal s.prevlsn := by
    rw [recPrevField_fill_record r s.prevlsn hr]
    exact Nat.mod_eq_of_lt hopt
  refine ⟨insert_emitted s r, hfield, ?_, insert_prevlsn s r, ?_⟩
  · intro hpos
    rw [hfield]
    cases hps : s.prevlsn with
    | none => simp [optVal]
    | some p =>
      have := hpos p hps
      simp [optVal]
      omega
  · rw [insert_prevlsn s r, recPrevField_fill_record r2 _ hr2]
    simp [optVal]
    omega

/-- C4, witness: the amended chain applied to a concrete state with a
preceding record at LSN 100. -/
theorem insert_prev_chain_witness :
    recPrevField (fill_record (List.replicate 26 0)
      (WalG.init 1 200 (some 100) 100 4096 1024).ins.prevlsn) =
      optVal (WalG.init 1 200 (some 100) 100 4096 1024).ins.prevlsn :=
  (insert_prev_chain (WalG.init 1 200 (some 100) 100 4096 1024).ins
    (List.replicate 26 0) (List.replicate 26 0) (by decide) (by decide)
    (by decide) (by decide)).2.1

/-! ## C5: CRC round trip -/

/-- C5: for every buffer of total length between `RECHDRLEN` and
`u32::MAX`, every header parameter set (id, info, optional xid) and
every optional prev LSN, the record stamped by `finish_record` and then
prev-chained by `InsertState::fill_record` passes `check_rec`, which
returns the header with exactly the stamped `totlen`, `info`, `id`,
`xid` and `prev`, and the original body bytes. -/
theorem crc_round_trip (d : List Nat) (id : RmgrId) (info : Nat)
    (xid prev : Option Nat)
    (hd : RECHDRLEN ≤ d.length) (hlen : d.length ≤ 2 ^ 32 - 1)
    (hinfo : info < 256)
    (hxid : ∀ x ∈ xid, 0 < x ∧ x < 2 ^ 64)
    (hprev : ∀ p ∈ prev, 0 < p ∧ p < 2 ^ 64) :
    ∃ rec, finish_record d id info xid = some rec
      ∧ check_rec (fill_record rec prev) =
          .ok ({ totlen := d.length, info := info, id := some id,
                 xid := xid, prev := prev }, data_area d) := by
  have h26 : RECHDRLEN = 26 := rfl
  have hxv : optVal xid < 2 ^ 64 := by
    cases xid with
    | none => norm_num [optVal]
    | some x => exact (hxid x rfl).2
  have hpv : optVal prev < 2 ^ 64 := by
    cases prev with
    | none => norm_num [optVal]
    | some p => exact (hprev p rfl).2
  have hg : ¬ (d.length > 2 ^ 32 - 1 ∨ d.length < RECHDRLEN) := by
    push_neg
    exact ⟨hlen, hd⟩
  refine ⟨le32 d.length ++ [info % 256, id.toU8] ++ le64 (optVal xid) ++
    le64 0 ++ le32 (crc32c (data_area d)) ++ data_area d,
    by unfold finish_record; rw [if_neg hg], ?_⟩
  have hbc : fromLE (le32 (crc32c (data_area d))) = crc32c (data_area d) :=
    fromLE_le32_of_lt (crc32c_lt _)
  have hfill : fill_record (le32 d.length ++ [info % 256, id.toU8] ++
      le64 (optVal xid) ++ le64 0 ++ le32 (crc32c (data_area d)) ++ data_area d)
      prev =
      le32 d.length ++ [info % 256, id.toU8] ++ le64 (optVal xid) ++
        le64 (optVal prev) ++
        le32 (crc32c_append (fromLE (le32 (crc32c (data_area d))))
          (le32 d.length ++ [info % 256, id.toU8] ++ le64 (optVal xid) ++
            le64 (optVal prev))) ++ data_area d := rfl
  rw [hfill, hbc]
  set bc := crc32c (data_area d) with hbcdef
  set hdrpfx := le32 d.length ++ [info % 256, id.toU8] ++ le64 (optVal xid) ++
    le64 (optVal prev) with hpfx
  set c := crc32c_append bc hdrpfx with hcdef
  set G := hdrpfx ++ le32 c ++ data_area d with hGdef
  have hGlen : G.length = d.length := by
    rw [hGdef, hpfx]
    simp [le32, le64, data_area]
    omega
  have hdrop26 : G.drop 26 = data_area d := by
    rw [hGdef, hpfx]
    rfl
  have htake22 : G.take 22 = hdrpfx := by
    rw [hGdef, hpfx]
    rfl
  have htake4 : G.take 4 = le32 d.length := by
    rw [hGdef, hpfx]
    rfl
  have hdrop22 : (G.drop 22).take 4 = le32 c := by
    rw [hGdef, hpfx]
    rfl
  have hclt : c < 2 ^ 32 := crc32c_append_lt _ (crc32c_lt _)
  have hdec : decodeHdr G =
      { totlen := d.length, info := info, id := some id,
        xid := xid, prev := prev } := by
    have e4 : G.getD 4 0 = info % 256 := by rw [hGdef, hpfx]; rfl
    have e5 : G.getD 5 0 = id.toU8 := by rw [hGdef, hpfx]; rfl
    have e6 : (G.drop 6).take 8 = le64 (optVal xid) := by rw [hGdef, hpfx]; rfl
    have e14 : (G.drop 14).take 8 = le64 (optVal prev) := by rw [hGdef, hpfx]; rfl
    have hid8 : id.toU8 % 256 = id.toU8 := by cases id <;> rfl
    unfold decodeHdr
    rw [e4, e5, e6, e14, htake4, hid8]
    rw [fromLE_le32_of_lt (by omega), fromLE_le64_of_lt hxv, fromLE_le64_of_lt hpv]
    rw [Nat.mod_mod_of_dvd info (dvd_refl 256), Nat.mod_eq_of_lt hinfo]
    rw [rmgrId_roundtrip]
    have hxfield : (if optVal xid = 0 then none else some (optVal xid)) = xid := by
      cases xid with
      | none => rfl
      | some x =>
        have hx0 : x ≠ 0 := Nat.pos_iff_ne_zero.mp (hxid x rfl).1
        simp [optVal, hx0]
    have hpfield : (if optVal prev = 0 then none else some (optVal prev)) = prev := by
      cases prev with
      | none => rfl
      | some p =>
        have hp0 : p ≠ 0 := Nat.pos_iff_ne_zero.mp (hprev p rfl).1
        simp [optVal, hp0]
    simp only [hxfield, hpfield]
  unfold check_rec
  rw [if_neg (by rw [hGlen, h26]; omega)]
  simp only [data_area, h26, hdrop26, hdr_crc_area, htake22, htake4]
  rw [fromLE_le32_of_lt (by omega), if_neg (by rw [hGlen]; simp)]
  rw [hdrop22, fromLE_le32_of_lt hclt]
  rw [if_neg (by rw [hcdef, hbcdef]; simp [data_area, h26])]
  rw [hdec]

/-- C5, witness: the round trip on a concrete 30-byte record. -/
theorem crc_round_trip_witness :
    ∃ rec, finish_record (List.replicate 30 1) RmgrId.Xact 32 (some 9) = some rec
      ∧ check_rec (fill_record rec (some 0x0133F0E2)) =
          .ok ({ totlen := (List.replicate 30 1 : List Nat).length, info := 32,
                 id := some RmgrId.Xact, xid := some 9, prev := some 0x0133F0E2 },
               data_area (List.replicate 30 1)) :=
  crc_round_trip (List.replicate 30 1) RmgrId.Xact 32 (some 9) (some 0x0133F0E2)
    (by decide) (by decide) (by decide) (by simp) (by simp)

/-- C10, witness: a 30-byte buffer is stamped normally. -/
theorem finish_record_spec_witness :
    ∃ rec, finish_record (List.replicate 30 0) RmgrId.Xlog 7 (some 5) = some rec
      ∧ fromLE (rec.take 4) = (List.replicate 30 0 : List Nat).length
      ∧ fromLE ((rec.drop 14).take 8) = 0
      ∧ fromLE ((rec.drop 6).take 8) = optVal (some 5)
      ∧ fromLE ((rec.drop 22).take 4) = crc32c (data_area (List.replicate 30 0))
      ∧ rec.getD 4 0 = 7
      ∧ rec.getD 5 0 = RmgrId.Xlog.toU8
      ∧ data_area rec = data_area (List.replicate 30 0)
      ∧ rec.length = (List.replicate 30 0 : List Nat).length :=
  (finish_record_spec (List.replicate 30 0) RmgrId.Xlog 7 (some 5)
    (by decide) (by simp)).2 (by decide) (by decide)

end KuiBa
